import Mathlib

/-!
Shallow embedding of the Membership and Payment Ledger of the
Gym-Management-system repository (src/db.py, src/main.py), together with
theorems settling the specification claims about it.

Modelling conventions:

* The SQLite database state is a pair of row lists (`members`, `payments`)
  plus the payments autoincrement counter.  Rows are Lean structures whose
  fields mirror the table columns of `db.py`.
* SQLite REAL money amounts are modelled as rationals; the code only ever
  adds the constant 400 surcharge, so no float-specific behaviour is
  involved in any claim.
* TEXT dates in the code are always the zero-padded "YYYY-MM-DD" format, and
  SQLite compares TEXT bytewise, which on that format coincides with the
  numeric order of year*10000 + month*100 + day.  We therefore model a date
  as a (year, month, day) triple ordered by that key.
* Billing months stay raw strings ("YYYY-MM"): the code only tests them for
  equality and against the regex ^\d\x7b4\x7d-\d\x7b2\x7d$ (modelled by
  `monthWellFormed`), except in the expired report where the two numeric
  components are parsed out (modelled by passing them directly).
* The state an operation returns is the state visible on the sqlite3
  connection after the operation: `record_payment` has no rollback on its
  error paths, so a pending `UPDATE members SET membership_type=...` stays
  visible (and is committed by whichever later operation next calls
  `conn.commit()`); the model therefore keeps such updates in the returned
  state.
* SQLite treats NULL values in a UNIQUE index as distinct from each other,
  so two payment rows (user_id, month, NULL) never violate
  UNIQUE(user_id, month, period).  `paymentConflicts` models exactly that.
-/

/-- A calendar date (y, m, d); stored in the database as "YYYY-MM-DD". -/
structure Date where
  y : Nat
  m : Nat
  d : Nat
deriving Repr, DecidableEq

/-- Numeric key whose order coincides with the bytewise order of the
zero-padded "YYYY-MM-DD" text form (for in-range month and day). -/
def Date.key (dt : Date) : Nat := dt.y * 10000 + dt.m * 100 + dt.d

/-- Strict order on dates, as SQLite compares the TEXT column. -/
def Date.blt (a b : Date) : Bool := a.key < b.key

/-- Non-strict order on dates. -/
def Date.ble (a b : Date) : Bool := a.key ≤ b.key

/-- The larger of two dates, as used by SQL MAX(payment_date). -/
def Date.max2 (a b : Date) : Date := if a.key < b.key then b else a

/-- A row of the `members` table (db.py, CREATE TABLE members). -/
structure Member where
  user_id : String
  name : String
  contact : String
  cnic : String
  location : Option String
  designation : Option String
  join_date : Date
  expiry_date : Date
  sport_category : String
  membership_type : String
  has_treadmill : Bool
  base_fee : ℚ
  total_fee : ℚ
  is_active : Bool
  updated_at : String
  photo_path : Option String
deriving Repr, DecidableEq

/-- A row of the `payments` table (db.py, CREATE TABLE payments);
`period` is NULL for 30-day plans. -/
structure Payment where
  id : Nat
  user_id : String
  amount : ℚ
  payment_date : Date
  month : String
  period : Option String
  updated_at : String
deriving Repr, DecidableEq

/-- The connection-visible database state. -/
structure DB where
  members : List Member
  payments : List Payment
  nextPaymentId : Nat
deriving Repr, DecidableEq

/-- The regex ^\d+$ used by validate_user_id and by the search_members
branch test (main.py line 945). -/
def matchesDigits (s : String) : Bool :=
  !s.toList.isEmpty && s.toList.all Char.isDigit

/-- The regex ^\d\x7b13\x7d$ of validate_cnic. -/
def validCnic (s : String) : Bool :=
  s.toList.length == 13 && s.toList.all Char.isDigit

/-- The regex ^\d\x7b10,15\x7d$ of validate_contact. -/
def validContact (s : String) : Bool :=
  10 ≤ s.toList.length && s.toList.length ≤ 15 && s.toList.all Char.isDigit

/-- The regex ^\d\x7b4\x7d-\d\x7b2\x7d$ checked on the billing month in
record_payment (main.py line 1272). -/
def monthWellFormed (s : String) : Bool :=
  match s.toList with
  | [a, b, c, d, dash, e, f] =>
      a.isDigit && b.isDigit && c.isDigit && d.isDigit &&
      dash == '-' && e.isDigit && f.isDigit
  | _ => false

/-- Days in a month, as datetime.strptime validates "%Y-%m-%d" input. -/
def daysInMonth (y m : Nat) : Nat :=
  if m == 2 then
    if y % 4 == 0 && (y % 100 != 0 || y % 400 == 0) then 29 else 28
  else if m == 4 || m == 6 || m == 9 || m == 11 then 30
  else 31

/-- validate_date: the string parses with strptime "%Y-%m-%d".  Dates are
modelled already split into components, so this is the calendar-validity
part of that check. -/
def validDate (dt : Date) : Bool :=
  1 ≤ dt.y && dt.y ≤ 9999 && 1 ≤ dt.m && dt.m ≤ 12 &&
  1 ≤ dt.d && dt.d ≤ daysInMonth dt.y dt.m

/-- Outcome of record_payment as surfaced to the caller: either a success
message naming the allocated period, or one of the error kinds of the
specification (each messagebox warning/error mapped to its kind). -/
inductive PayErr where
  | noActiveMemberError
  | validationError
  | amountMismatchError
  | periodExhaustedError
  | duplicatePaymentError
deriving Repr, DecidableEq

/-- Result of a record_payment call. -/
inductive PayResult where
  | success (per : Option String)
  | failure (e : PayErr)
deriving Repr, DecidableEq

/-- The UPDATE members SET membership_type=?, updated_at=? WHERE user_id=?
executed by record_payment when the selected plan differs from the stored
one (main.py lines 1284-1292; note: no is_active filter). -/
def setMembershipType (db : DB) (uid mtype nowTs : String) : DB :=
  { db with members := db.members.map fun m =>
      if m.user_id == uid then
        { m with membership_type := mtype, updated_at := nowTs }
      else m }

/-- Whether inserting (uid, month, per) violates UNIQUE(user_id, month,
period).  SQLite considers NULLs in a unique index distinct from each
other, so a NULL period never conflicts with anything. -/
def paymentConflicts (db : DB) (uid month : String) (per : Option String) : Bool :=
  match per with
  | none => false
  | some p =>
      db.payments.any fun q =>
        q.user_id == uid && q.month == month && q.period == some p

/-- The INSERT INTO payments of record_payment (main.py lines 1311-1317),
including the IntegrityError-to-DuplicatePaymentError translation of the
except handler (lines 1334-1336, which does not roll back). -/
def insertPayment (db : DB) (uid : String) (amount : ℚ) (payDate : Date)
    (month : String) (per : Option String) (nowTs : String) : PayResult × DB :=
  if paymentConflicts db uid month per then
    (.failure .duplicatePaymentError, db)
  else
    (.success per,
      { db with
          payments := db.payments ++
            [{ id := db.nextPaymentId, user_id := uid, amount := amount,
               payment_date := payDate, month := month, period := per,
               updated_at := nowTs }],
          nextPaymentId := db.nextPaymentId + 1 })

/-- GymManagementSystem.record_payment (main.py lines 1258-1342).  `cm?` is
the bound `self.current_member` snapshot (none when no member was searched).
`payDate`/`nowTs` stand for datetime.now().  The float() parse of the amount
entry is subsumed by `amount` already being a number. -/
def record_payment (db : DB) (cm? : Option Member) (amount : ℚ)
    (month mtype : String) (payDate : Date) (nowTs : String) : PayResult × DB :=
  match cm? with
  | none => (.failure .noActiveMemberError, db)
  | some cm =>
    if amount ≤ 0 then (.failure .validationError, db)
    else if !monthWellFormed month then (.failure .validationError, db)
    else if mtype == "" then (.failure .validationError, db)
    else if amount != cm.total_fee then (.failure .amountMismatchError, db)
    else
      let db1 := if mtype != cm.membership_type then
                   setMembershipType db cm.user_id mtype nowTs
                 else db
      if mtype == "15-day" then
        let existing := (db1.payments.filter fun p =>
          p.user_id == cm.user_id && p.month == month).map Payment.period
        if !existing.contains (some "first_half") then
          insertPayment db1 cm.user_id amount payDate month (some "first_half") nowTs
        else if !existing.contains (some "second_half") then
          insertPayment db1 cm.user_id amount payDate month (some "second_half") nowTs
        else
          (.failure .periodExhaustedError, db1)
      else
        insertPayment db1 cm.user_id amount payDate month none nowTs

/-- Outcome of save_member / update_member: success, a validation warning
(one of the showwarning early returns), or the IntegrityError path. -/
inductive SaveResult where
  | success
  | validationWarning
  | duplicateKeyError
deriving Repr, DecidableEq

/-- The form values consumed by save_member / update_member.  Dates are
modelled already parsed (their textual well-formedness is the job of
validate_date, kept as `validDate`); `base_fee` is the parsed float. -/
structure MemberInput where
  user_id : String
  name : String
  contact : String
  cnic : String
  location : String
  designation : String
  join_date : Date
  expiry_date : Date
  sport : String
  membership : String
  has_treadmill : Bool
  base_fee : ℚ
  photo : Option String
deriving Repr, DecidableEq

/-- The shared field validation of save_member and update_member
(main.py lines 687-724 and 776-813).  The required-field presence check
covers the string fields; dates are typed so their presence/format check is
subsumed by `validDate`. -/
def validateInput (inp : MemberInput) : Bool :=
  inp.user_id != "" && inp.name != "" && inp.contact != "" && inp.cnic != "" &&
  matchesDigits inp.user_id &&
  validCnic inp.cnic &&
  validContact inp.contact &&
  validDate inp.join_date && validDate inp.expiry_date &&
  inp.sport != "" &&
  inp.membership != "" &&
  0 < inp.base_fee

/-- The member row built by the INSERT of save_member, with the derived
total_fee = base_fee + (400 if has_treadmill else 0) (main.py line 726). -/
def memberOfInput (inp : MemberInput) (nowTs : String) : Member :=
  { user_id := inp.user_id, name := inp.name, contact := inp.contact,
    cnic := inp.cnic,
    location := if inp.location == "" then none else some inp.location,
    designation := if inp.designation == "" then none else some inp.designation,
    join_date := inp.join_date, expiry_date := inp.expiry_date,
    sport_category := inp.sport, membership_type := inp.membership,
    has_treadmill := inp.has_treadmill, base_fee := inp.base_fee,
    total_fee := inp.base_fee + (if inp.has_treadmill then 400 else 0),
    is_active := true, updated_at := nowTs, photo_path := inp.photo }

/-- GymManagementSystem.save_member (main.py lines 684-764): validate, then
INSERT; a user_id (PRIMARY KEY) or cnic (UNIQUE) collision raises
IntegrityError, which rolls the insert back and reports a duplicate. -/
def save_member (db : DB) (inp : MemberInput) (nowTs : String) : SaveResult × DB :=
  if !validateInput inp then (.validationWarning, db)
  else if db.members.any (fun m => m.user_id == inp.user_id || m.cnic == inp.cnic) then
    (.duplicateKeyError, db)
  else
    (.success, { db with members := db.members ++ [memberOfInput inp nowTs] })

/-- The new values written over a row by the UPDATE of update_member; the
photo is replaced only when a new one was supplied, and is_active is not in
the SET list (main.py lines 837-850). -/
def applyInput (r : Member) (inp : MemberInput) (nowTs : String) : Member :=
  { user_id := inp.user_id, name := inp.name, contact := inp.contact,
    cnic := inp.cnic,
    location := if inp.location == "" then none else some inp.location,
    designation := if inp.designation == "" then none else some inp.designation,
    join_date := inp.join_date, expiry_date := inp.expiry_date,
    sport_category := inp.sport, membership_type := inp.membership,
    has_treadmill := inp.has_treadmill, base_fee := inp.base_fee,
    total_fee := inp.base_fee + (if inp.has_treadmill then 400 else 0),
    is_active := r.is_active, updated_at := nowTs,
    photo_path := match inp.photo with
      | some p => some p
      | none => r.photo_path }

/-- GymManagementSystem.update_member (main.py lines 766-862): the original
user_id is captured from the selected row first, validation is the same as
save_member, and the UPDATE targets WHERE user_id=old AND is_active=1.
Writing a user_id/cnic held by a different row raises IntegrityError
(reported as duplicate, nothing written). -/
def update_member (db : DB) (old_user_id : String) (inp : MemberInput)
    (nowTs : String) : SaveResult × DB :=
  if !validateInput inp then (.validationWarning, db)
  else
    let conflict :=
      db.members.any (fun r => r.user_id == old_user_id && r.is_active) &&
      db.members.any (fun m =>
        !(m.user_id == old_user_id) && (m.user_id == inp.user_id || m.cnic == inp.cnic))
    if conflict then (.duplicateKeyError, db)
    else
      (.success, { db with members := db.members.map fun r =>
          if r.user_id == old_user_id && r.is_active then applyInput r inp nowTs
          else r })

/-- GymManagementSystem.update_total_fees (main.py lines 66-77): the
startup reconciliation pass; rewrites total_fee (stamping updated_at) on
exactly the rows where it diverges from the derived formula. -/
def update_total_fees (db : DB) (nowTs : String) : DB :=
  { db with members := db.members.map fun m =>
      let expected := m.base_fee + (if m.has_treadmill then 400 else 0)
      if m.total_fee != expected then
        { m with total_fee := expected, updated_at := nowTs }
      else m }

/-- GymManagementSystem.search_members (main.py lines 935-967), the Member
Management tab search: a digit-only query is looked up as a user_id, any
other query as a cnic, both restricted to is_active=1.  Returns the matching
rows (the UI shows their user_id, name, cnic and membership_type). -/
def search_members (db : DB) (q : String) : List Member :=
  if q == "" then []
  else if matchesDigits q then
    db.members.filter fun m => m.user_id == q && m.is_active
  else
    db.members.filter fun m => m.cnic == q && m.is_active

/-- GymManagementSystem.search_member (main.py lines 1181-1215), the
payment-tab search that binds self.current_member: fetchone on
WHERE (user_id=? OR cnic=?) AND is_active=1. -/
def search_member (db : DB) (q : String) : Option Member :=
  if q == "" then none
  else db.members.find? fun m => (m.user_id == q || m.cnic == q) && m.is_active

/-- MAX over a list of dates, none on the empty list (SQL MAX returns NULL
when no row matches). -/
def maxDate? : List Date → Option Date
  | [] => none
  | d :: ds =>
    match maxDate? ds with
    | none => some d
    | some d' => some (Date.max2 d d')

/-- The correlated subquery SELECT MAX(payment_date) FROM payments WHERE
user_id = ? of the expired report (main.py line 491). -/
def lastPaymentDate (db : DB) (uid : String) : Option Date :=
  maxDate? ((db.payments.filter fun p => p.user_id == uid).map Payment.payment_date)

/-- First day of the month after billing month (y, m), exactly as
generate_expired_report computes it: datetime(y, m+1, 1) when m < 12, else
datetime(y+1, 1, 1) (main.py line 485). -/
def nextMonthStart (y m : Nat) : Date :=
  if m < 12 then ⟨y, m + 1, 1⟩ else ⟨y + 1, 1, 1⟩

/-- GymManagementSystem.generate_expired_report (main.py lines 483-496):
active members whose expiry_date is strictly before the first day of the
month after (y, m), each paired with their latest payment date (none is
rendered as Never). -/
def generate_expired_report (db : DB) (y m : Nat) : List (Member × Option Date) :=
  let endDate := nextMonthStart y m
  (db.members.filter fun mem =>
      Date.blt mem.expiry_date endDate && mem.is_active).map
    fun mem => (mem, lastPaymentDate db mem.user_id)

/-- The kind-specific member predicate appended to the payment-report query
(main.py lines 431-437): membership_type equality for the plan reports,
sport_category equality for a non-All sport filter, otherwise no filter. -/
def reportPred (report_type sport : String) (m : Member) : Bool :=
  if report_type == "30-Day Plan" then m.membership_type == "30-day"
  else if report_type == "15-Day Plan" then m.membership_type == "15-day"
  else if report_type == "Sport Category" && sport != "All" then
    m.sport_category == sport
  else true

/-- GymManagementSystem.generate_payment_report (main.py lines 420-481):
FROM payments p JOIN members m ON p.user_id = m.user_id WHERE p.month = ?
plus the kind predicate; one joined row per (payment, matching member). -/
def generate_payment_report (db : DB) (report_type month sport : String) :
    List (Payment × Member) :=
  db.payments.flatMap fun p =>
    if p.month == month then
      (db.members.filter fun m =>
          m.user_id == p.user_id && reportPred report_type sport m).map
        fun m => (p, m)
    else []

/-- total_revenue = sum(row[7] for row in data) (main.py line 447). -/
def totalRevenue (rows : List (Payment × Member)) : ℚ :=
  (rows.map fun r => r.1.amount).sum

/-- member_count = len(set(row[1] for row in data)) where row[1] is the
joined member's user_id (main.py line 448). -/
def uniqueMemberCount (rows : List (Payment × Member)) : Nat :=
  ((rows.map fun r => r.2.user_id).dedup).length

/-- The derived-fee invariant of the specification: every member row at
rest satisfies total_fee = base_fee + (400 if has_treadmill else 0). -/
def feeInvariant (db : DB) : Prop :=
  ∀ mem ∈ db.members, mem.total_fee = mem.base_fee + (if mem.has_treadmill then 400 else 0)

instance (db : DB) : Decidable (feeInvariant db) := by
  unfold feeInvariant; infer_instance

/-- A 30-day member with treadmill, matching the spec's end-to-end example
(user_id "1001", cnic "1234567890123", base_fee 2000, total_fee 2400). -/
def exMember30 : Member :=
  { user_id := "1001", name := "Ali", contact := "0300123456",
    cnic := "1234567890123", location := none, designation := none,
    join_date := ⟨2024, 1, 1⟩, expiry_date := ⟨2024, 6, 30⟩,
    sport_category := "Gym", membership_type := "30-day",
    has_treadmill := true, base_fee := 2000, total_fee := 2400,
    is_active := true, updated_at := "t0", photo_path := none }

/-- Database holding just `exMember30` and no payments. -/
def exDB30 : DB := { members := [exMember30], payments := [], nextPaymentId := 1 }

/-- A 15-day member without treadmill. -/
def exMember15 : Member :=
  { user_id := "1002", name := "Bano", contact := "0300765432",
    cnic := "9876543210987", location := some "Lahore", designation := none,
    join_date := ⟨2024, 2, 1⟩, expiry_date := ⟨2024, 8, 1⟩,
    sport_category := "Squash", membership_type := "15-day",
    has_treadmill := false, base_fee := 1500, total_fee := 1500,
    is_active := true, updated_at := "t0", photo_path := none }

/-- Database holding just `exMember15` and no payments. -/
def exDB15 : DB := { members := [exMember15], payments := [], nextPaymentId := 1 }

/-- A payment row for `exMember30`, month 2024-06, first_half period. -/
def exPayFH : Payment :=
  { id := 1, user_id := "1001", amount := 2400, payment_date := ⟨2024, 6, 2⟩,
    month := "2024-06", period := some "first_half", updated_at := "t1" }

/-- A payment row for `exMember30`, month 2024-06, second_half period. -/
def exPaySH : Payment :=
  { id := 2, user_id := "1001", amount := 2400, payment_date := ⟨2024, 6, 16⟩,
    month := "2024-06", period := some "second_half", updated_at := "t2" }

/-- C1: the claim says that of two RecordPayment calls for a 30-day member
and the same month (correct amount, well-formed month), the first succeeds
with period NULL and the second fails with DuplicatePaymentError.  The code
disagrees at this input: the second insert produces another
(user_id, month, NULL) row, and SQLite's UNIQUE(user_id, month, period)
does not reject it because NULLs in a unique index are mutually distinct,
so BOTH calls succeed and two payment rows remain for the member and
month. -/
theorem thirtyDay_second_payment_not_rejected :
    (record_payment exDB30 (some exMember30) 2400 "2024-06" "30-day"
        ⟨2024, 6, 5⟩ "t1").1 = .success none ∧
    (record_payment
        (record_payment exDB30 (some exMember30) 2400 "2024-06" "30-day"
          ⟨2024, 6, 5⟩ "t1").2
        (some exMember30) 2400 "2024-06" "30-day" ⟨2024, 6, 9⟩ "t2").1
      = .success none ∧
    ((record_payment
        (record_payment exDB30 (some exMember30) 2400 "2024-06" "30-day"
          ⟨2024, 6, 5⟩ "t1").2
        (some exMember30) 2400 "2024-06" "30-day" ⟨2024, 6, 9⟩ "t2").2.payments.filter
      fun p => p.user_id == "1001" && p.month == "2024-06").length = 2 := by
  decide

/-- Database for the C2 scenario: the member is stored as 30-day, but both
half-month payment rows already exist for 2024-06 (the state RecordPayment
is called against; the rows can predate a plan change). -/
def exDBC2 : DB :=
  { members := [exMember30], payments := [exPayFH, exPaySH], nextPaymentId := 3 }

/-- C2: the claim says a failed RecordPayment leaves the state exactly as
before the call, in particular that the step-4 membership_type update does
not survive the failure.  The code disagrees at this input: paying as
15-day while the member is stored as 30-day first updates membership_type,
then hits PeriodExhaustedError because both halves of the month are taken,
and returns without any rollback, so the membership_type change stays
visible on the connection (and is committed by the next operation that
commits). -/
theorem failed_payment_keeps_membership_update :
    (record_payment exDBC2 (some exMember30) 2400 "2024-06" "15-day"
        ⟨2024, 6, 20⟩ "t9").1 = .failure .periodExhaustedError ∧
    (record_payment exDBC2 (some exMember30) 2400 "2024-06" "15-day"
        ⟨2024, 6, 20⟩ "t9").2.members.map Member.membership_type = ["15-day"] ∧
    exDBC2.members.map Member.membership_type = ["30-day"] := by
  decide

/-- C6: the claim says lookup by a member's exact cnic in a member-facing
search flow returns exactly that member.  The code disagrees in the Member
Management search (search_members): a stored cnic is always 13 digits, so
the query matches the digit-only regex and is routed to the user_id branch,
and the cnic branch is unreachable; searching the exact cnic of the active
member `exMember30` returns no rows.  (The payment-tab search_member, which
queries user_id OR cnic, does find the member.) -/
theorem search_members_by_cnic_returns_nothing :
    exMember30 ∈ exDB30.members ∧
    exMember30.is_active = true ∧
    exMember30.cnic = "1234567890123" ∧
    search_members exDB30 "1234567890123" = [] ∧
    search_member exDB30 "1234567890123" = some exMember30 := by
  decide

/-- C5: for a bound active member, a positive amount different from the
member's total_fee, a well-formed month and a non-empty membership type,
record_payment fails with AmountMismatchError and leaves the database
untouched (no payment row inserted). -/
theorem amount_mismatch_rejected (db : DB) (cm : Member) (amount : ℚ)
    (month mtype : String) (pd : Date) (ts : String)
    (hact : cm.is_active = true) (hpos : 0 < amount)
    (hwf : monthWellFormed month = true) (hmt : mtype ≠ "")
    (hne : amount ≠ cm.total_fee) :
    record_payment db (some cm) amount month mtype pd ts =
      (.failure .amountMismatchError, db) := by
  simp [record_payment, not_le.mpr hpos, hwf, hmt, hne]

/-- Witness: C5 applied at a concrete mismatching amount. -/
theorem amount_mismatch_rejected_witness :
    record_payment exDB30 (some exMember30) 100 "2024-06" "30-day"
        ⟨2024, 6, 5⟩ "t1" = (.failure .amountMismatchError, exDB30) :=
  amount_mismatch_rejected exDB30 exMember30 100 "2024-06" "30-day"
    ⟨2024, 6, 5⟩ "t1" (by decide) (by norm_num) (by decide) (by decide)
    (by norm_num [exMember30])

/-- C4: the derived-fee equation total_fee = base_fee + (400 if
has_treadmill else 0) holds for every member row after a save_member call,
after an update_member call, and unconditionally after the startup
reconciliation pass update_total_fees (which rewrites every divergent
row). -/
theorem total_fee_invariant_preserved (db : DB) (inp : MemberInput)
    (old nowTs : String) (h : feeInvariant db) :
    feeInvariant (save_member db inp nowTs).2 ∧
    feeInvariant (update_member db old inp nowTs).2 ∧
    ∀ (db2 : DB) (ts2 : String), feeInvariant (update_total_fees db2 ts2) := by
  refine ⟨?_, ?_, ?_⟩
  · unfold save_member
    split
    · exact h
    · split
      · exact h
      · intro mem hmem
        simp only [List.mem_append, List.mem_singleton] at hmem
        rcases hmem with hmem | rfl
        · exact h mem hmem
        · simp [memberOfInput]
  · unfold update_member
    split
    · exact h
    · dsimp only
      split
      · exact h
      · intro mem hmem
        simp only [List.mem_map] at hmem
        obtain ⟨r, hr, rfl⟩ := hmem
        split
        · simp [applyInput]
        · exact h r hr
  · intro db2 ts2 mem hmem
    simp only [update_total_fees, List.mem_map] at hmem
    obtain ⟨m0, hm0, rfl⟩ := hmem
    by_cases hdiv : m0.total_fee = m0.base_fee + (if m0.has_treadmill = true then 400 else 0)
    · simp [hdiv]
    · simp [hdiv]

/-- Witness: C4 applied at a database that satisfies the invariant. -/
theorem total_fee_invariant_preserved_witness :
    feeInvariant (save_member exDB30
      { user_id := "1002", name := "Bano", contact := "0300765432",
        cnic := "9876543210987", location := "", designation := "",
        join_date := ⟨2024, 2, 1⟩, expiry_date := ⟨2024, 8, 1⟩,
        sport := "Squash", membership := "15-day", has_treadmill := false,
        base_fee := 1500, photo := none } "t3").2 :=
  (total_fee_invariant_preserved exDB30
    { user_id := "1002", name := "Bano", contact := "0300765432",
      cnic := "9876543210987", location := "", designation := "",
      join_date := ⟨2024, 2, 1⟩, expiry_date := ⟨2024, 8, 1⟩,
      sport := "Squash", membership := "15-day", has_treadmill := false,
      base_fee := 1500, photo := none } "1001" "t3"
    (by norm_num [feeInvariant, exDB30, exMember30])).1

/-- Two member rows agree on every column except membership_type and
updated_at. -/
def memberFrameEq (a b : Member) : Prop :=
  a.user_id = b.user_id ∧ a.name = b.name ∧ a.contact = b.contact ∧
  a.cnic = b.cnic ∧ a.location = b.location ∧ a.designation = b.designation ∧
  a.join_date = b.join_date ∧ a.expiry_date = b.expiry_date ∧
  a.sport_category = b.sport_category ∧ a.has_treadmill = b.has_treadmill ∧
  a.base_fee = b.base_fee ∧ a.total_fee = b.total_fee ∧
  a.is_active = b.is_active ∧ a.photo_path = b.photo_path

theorem memberFrameEq_refl (a : Member) : memberFrameEq a a := by
  simp [memberFrameEq]

theorem forall₂_frame_refl (l : List Member) :
    List.Forall₂ memberFrameEq l l :=
  List.forall₂_same.mpr fun x _ => memberFrameEq_refl x

theorem forall₂_frame_setMembershipType (db : DB) (uid mtype nowTs : String) :
    List.Forall₂ memberFrameEq db.members (setMembershipType db uid mtype nowTs).members := by
  unfold setMembershipType
  rw [List.forall₂_map_right_iff]
  refine List.forall₂_same.mpr fun x _ => ?_
  split
  · simp [memberFrameEq]
  · exact memberFrameEq_refl x

theorem insertPayment_members (db : DB) (uid : String) (amount : ℚ)
    (payDate : Date) (month : String) (per : Option String) (nowTs : String) :
    (insertPayment db uid amount payDate month per nowTs).2.members = db.members := by
  unfold insertPayment
  split <;> rfl

/-- C8: record_payment never changes a member's expiry_date, nor any member
column other than membership_type and updated_at: whatever the arguments
and outcome, every member row of the resulting state is frame-equal to the
corresponding row of the starting state (same list, row for row). -/
theorem record_payment_member_frame (db : DB) (cm? : Option Member)
    (amount : ℚ) (month mtype : String) (payDate : Date) (nowTs : String) :
    List.Forall₂ memberFrameEq db.members
      (record_payment db cm? amount month mtype payDate nowTs).2.members := by
  rcases cm? with _ | cm
  · exact forall₂_frame_refl db.members
  · unfold record_payment
    dsimp only
    split
    · exact forall₂_frame_refl db.members
    split
    · exact forall₂_frame_refl db.members
    split
    · exact forall₂_frame_refl db.members
    split
    · exact forall₂_frame_refl db.members
    have hdb1 : ∀ db1 : DB,
        List.Forall₂ memberFrameEq db.members db1.members →
        List.Forall₂ memberFrameEq db.members
          (if mtype == "15-day" then
            (let existing := (db1.payments.filter fun p =>
                p.user_id == cm.user_id && p.month == month).map Payment.period
             if !existing.contains (some "first_half") then
               insertPayment db1 cm.user_id amount payDate month (some "first_half") nowTs
             else if !existing.contains (some "second_half") then
               insertPayment db1 cm.user_id amount payDate month (some "second_half") nowTs
             else (.failure .periodExhaustedError, db1))
           else insertPayment db1 cm.user_id amount payDate month none nowTs).2.members := by
      intro db1 h1
      split
      · dsimp only
        split
        · rwa [insertPayment_members]
        split
        · rwa [insertPayment_members]
        · exact h1
      · rwa [insertPayment_members]
    by_cases hplan : (mtype != cm.membership_type) = true
    · rw [if_pos hplan]
      exact hdb1 _ (forall₂_frame_setMembershipType db cm.user_id mtype nowTs)
    · rw [if_neg hplan]
      exact hdb1 db (forall₂_frame_refl db.members)

/-- Reduction of record_payment for a bound 15-day member paying exactly
total_fee for a well-formed month: the validation gate passes, the plan is
unchanged, and only the period-allocation core remains. -/
theorem record_payment_15day_shape (db : DB) (cm : Member) (month : String)
    (pd : Date) (ts : String) (hmt : cm.membership_type = "15-day")
    (hwf : monthWellFormed month = true) (hpos : 0 < cm.total_fee) :
    record_payment db (some cm) cm.total_fee month "15-day" pd ts =
      (let existing := (db.payments.filter fun p =>
          p.user_id == cm.user_id && p.month == month).map Payment.period
       if !existing.contains (some "first_half") then
         insertPayment db cm.user_id cm.total_fee pd month (some "first_half") ts
       else if !existing.contains (some "second_half") then
         insertPayment db cm.user_id cm.total_fee pd month (some "second_half") ts
       else (.failure .periodExhaustedError, db)) := by
  simp [record_payment, not_le.mpr hpos, hwf, hmt]

/-- C10: for a 15-day member and a month whose recorded payments contain a
second_half row but no first_half row, record_payment (right amount,
well-formed month) succeeds and allocates first_half rather than failing:
the allocation only tests the absence of first_half first. -/
theorem fifteenDay_secondHalf_only_gets_firstHalf (db : DB) (cm : Member)
    (month : String) (pd : Date) (ts : String)
    (hmt : cm.membership_type = "15-day") (hwf : monthWellFormed month = true)
    (hpos : 0 < cm.total_fee)
    (hno1 : ∀ p ∈ db.payments, p.user_id = cm.user_id → p.month = month →
      p.period ≠ some "first_half")
    (hsh : ∃ p ∈ db.payments, p.user_id = cm.user_id ∧ p.month = month ∧
      p.period = some "second_half") :
    (record_payment db (some cm) cm.total_fee month "15-day" pd ts).1 =
      .success (some "first_half") ∧
    (record_payment db (some cm) cm.total_fee month "15-day" pd ts).2.payments.length =
      db.payments.length + 1 := by
  have hshape := record_payment_15day_shape db cm month pd ts hmt hwf hpos
  have hcontains : ((db.payments.filter fun p =>
      p.user_id == cm.user_id && p.month == month).map Payment.period).contains
      (some "first_half") = false := by
    rw [Bool.eq_false_iff]
    intro hc
    rw [List.elem_iff] at hc
    simp only [List.mem_map, List.mem_filter] at hc
    obtain ⟨p, ⟨hp, hcond⟩, hper⟩ := hc
    rw [Bool.and_eq_true, beq_iff_eq, beq_iff_eq] at hcond
    exact hno1 p hp hcond.1 hcond.2 hper
  have hconf : paymentConflicts db cm.user_id month (some "first_half") = false := by
    unfold paymentConflicts
    refine List.any_eq_false.mpr fun p hp hcond => ?_
    rw [Bool.and_eq_true, Bool.and_eq_true, beq_iff_eq, beq_iff_eq, beq_iff_eq] at hcond
    exact hno1 p hp hcond.1.1 hcond.1.2 hcond.2
  rw [hshape]
  simp only [hcontains, Bool.not_false, if_true, insertPayment, hconf,
    Bool.false_eq_true, if_false]
  simp

/-- A second_half payment row of `exMember15` for 2024-06. -/
def exPaySH15 : Payment :=
  { id := 1, user_id := "1002", amount := 1500, payment_date := ⟨2024, 6, 16⟩,
    month := "2024-06", period := some "second_half", updated_at := "t1" }

/-- Database for the C10 scenario: `exMember15` whose only 2024-06 payment
is the second_half row. -/
def exDBC10 : DB :=
  { members := [exMember15], payments := [exPaySH15], nextPaymentId := 2 }

/-- Witness for C10: a concrete 15-day member whose only June payment is a
second_half row. -/
theorem fifteenDay_secondHalf_only_gets_firstHalf_witness :
    (record_payment exDBC10 (some exMember15) exMember15.total_fee "2024-06"
        "15-day" ⟨2024, 6, 20⟩ "t2").1 = .success (some "first_half") :=
  (fifteenDay_secondHalf_only_gets_firstHalf exDBC10 exMember15 "2024-06"
    ⟨2024, 6, 20⟩ "t2" (by decide) (by decide)
    (by norm_num [exMember15]) (by decide) (by decide)).1

/-- C3: for a 15-day member and a month with no recorded payments yet,
three successive record_payment calls (right amount, well-formed month)
give first_half, then second_half, then PeriodExhaustedError; the order of
allocation is always first_half before second_half. -/
theorem fifteenDay_three_payments (db : DB) (cm : Member) (month : String)
    (pd1 pd2 pd3 : Date) (ts1 ts2 ts3 : String)
    (hmt : cm.membership_type = "15-day") (hwf : monthWellFormed month = true)
    (hpos : 0 < cm.total_fee)
    (hnone : ∀ p ∈ db.payments, ¬(p.user_id = cm.user_id ∧ p.month = month)) :
    (record_payment db (some cm) cm.total_fee month "15-day" pd1 ts1).1 =
      .success (some "first_half") ∧
    (record_payment
      (record_payment db (some cm) cm.total_fee month "15-day" pd1 ts1).2
      (some cm) cm.total_fee month "15-day" pd2 ts2).1 =
      .success (some "second_half") ∧
    (record_payment
      (record_payment
        (record_payment db (some cm) cm.total_fee month "15-day" pd1 ts1).2
        (some cm) cm.total_fee month "15-day" pd2 ts2).2
      (some cm) cm.total_fee month "15-day" pd3 ts3).1 =
      .failure .periodExhaustedError := by
  have hfil0 : (db.payments.filter fun p =>
      p.user_id == cm.user_id && p.month == month) = [] := by
    refine List.filter_eq_nil_iff.mpr fun p hp hcond => ?_
    rw [Bool.and_eq_true, beq_iff_eq, beq_iff_eq] at hcond
    exact hnone p hp hcond
  have hconfFH : paymentConflicts db cm.user_id month (some "first_half") = false := by
    unfold paymentConflicts
    refine List.any_eq_false.mpr fun p hp hcond => ?_
    rw [Bool.and_eq_true, Bool.and_eq_true, beq_iff_eq, beq_iff_eq] at hcond
    exact hnone p hp ⟨hcond.1.1, hcond.1.2⟩
  have h1 : record_payment db (some cm) cm.total_fee month "15-day" pd1 ts1 =
      (.success (some "first_half"),
        { db with
            payments := db.payments ++
              [{ id := db.nextPaymentId, user_id := cm.user_id,
                 amount := cm.total_fee, payment_date := pd1, month := month,
                 period := some "first_half", updated_at := ts1 }],
            nextPaymentId := db.nextPaymentId + 1 }) := by
    rw [record_payment_15day_shape db cm month pd1 ts1 hmt hwf hpos]
    simp [hfil0, insertPayment, hconfFH]
  set db1 : DB :=
    { db with
        payments := db.payments ++
          [{ id := db.nextPaymentId, user_id := cm.user_id,
             amount := cm.total_fee, payment_date := pd1, month := month,
             period := some "first_half", updated_at := ts1 }],
        nextPaymentId := db.nextPaymentId + 1 } with hdb1
  have hfil1 : (db1.payments.filter fun p =>
      p.user_id == cm.user_id && p.month == month) =
      [{ id := db.nextPaymentId, user_id := cm.user_id,
         amount := cm.total_fee, payment_date := pd1, month := month,
         period := some "first_half", updated_at := ts1 }] := by
    rw [hdb1]
    simp [List.filter_append, hfil0]
  have hconfSH1 : paymentConflicts db1 cm.user_id month (some "second_half") = false := by
    rw [hdb1]
    unfold paymentConflicts
    refine List.any_eq_false.mpr fun p hp hcond => ?_
    rw [List.mem_append] at hp
    rcases hp with hp | hp
    · rw [Bool.and_eq_true, Bool.and_eq_true, beq_iff_eq, beq_iff_eq] at hcond
      exact hnone p hp ⟨hcond.1.1, hcond.1.2⟩
    · rw [List.mem_singleton] at hp
      subst hp
      simp at hcond
  have h2 : record_payment db1 (some cm) cm.total_fee month "15-day" pd2 ts2 =
      (.success (some "second_half"),
        { db1 with
            payments := db1.payments ++
              [{ id := db1.nextPaymentId, user_id := cm.user_id,
                 amount := cm.total_fee, payment_date := pd2, month := month,
                 period := some "second_half", updated_at := ts2 }],
            nextPaymentId := db1.nextPaymentId + 1 }) := by
    rw [record_payment_15day_shape db1 cm month pd2 ts2 hmt hwf hpos]
    simp [hfil1, insertPayment, hconfSH1]
  set db2 : DB :=
    { db1 with
        payments := db1.payments ++
          [{ id := db1.nextPaymentId, user_id := cm.user_id,
             amount := cm.total_fee, payment_date := pd2, month := month,
             period := some "second_half", updated_at := ts2 }],
        nextPaymentId := db1.nextPaymentId + 1 } with hdb2
  have hfil2 : (db2.payments.filter fun p =>
      p.user_id == cm.user_id && p.month == month) =
      [{ id := db.nextPaymentId, user_id := cm.user_id,
         amount := cm.total_fee, payment_date := pd1, month := month,
         period := some "first_half", updated_at := ts1 },
       { id := db1.nextPaymentId, user_id := cm.user_id,
         amount := cm.total_fee, payment_date := pd2, month := month,
         period := some "second_half", updated_at := ts2 }] := by
    rw [hdb2]
    simp only [List.filter_append, hfil1]
    simp [List.filter_append, hfil0]
  have h3 : record_payment db2 (some cm) cm.total_fee month "15-day" pd3 ts3 =
      (.failure .periodExhaustedError, db2) := by
    rw [record_payment_15day_shape db2 cm month pd3 ts3 hmt hwf hpos]
    simp [hfil2]
  refine ⟨?_, ?_, ?_⟩
  · rw [h1]
  · rw [h1]
    rw [show ((PayResult.success (some "first_half"), db1)).2 = db1 from rfl, h2]
  · rw [h1]
    rw [show ((PayResult.success (some "first_half"), db1)).2 = db1 from rfl, h2]
    rw [show ((PayResult.success (some "second_half"), db2)).2 = db2 from rfl, h3]

/-- Witness for C3: the first of the three calls on a fresh 15-day member
allocates first_half. -/
theorem fifteenDay_three_payments_witness :
    (record_payment exDB15 (some exMember15) exMember15.total_fee "2024-06"
        "15-day" ⟨2024, 6, 1⟩ "t1").1 = .success (some "first_half") :=
  (fifteenDay_three_payments exDB15 exMember15 "2024-06" ⟨2024, 6, 1⟩
    ⟨2024, 6, 16⟩ ⟨2024, 6, 20⟩ "t1" "t2" "t3" (by decide) (by decide)
    (by norm_num [exMember15]) (by simp [exDB15])).1

theorem maxDate?_eq_none (l : List Date) : maxDate? l = none ↔ l = [] := by
  cases l with
  | nil => simp [maxDate?]
  | cons d ds => cases h : maxDate? ds <;> simp [maxDate?, h]

theorem Date.max2_cases (a b : Date) : Date.max2 a b = a ∨ Date.max2 a b = b := by
  unfold Date.max2
  split
  · right; rfl
  · left; rfl

theorem maxDate?_mem {l : List Date} {d : Date} (h : maxDate? l = some d) :
    d ∈ l := by
  induction l generalizing d with
  | nil => simp [maxDate?] at h
  | cons a t ih =>
    cases ht : maxDate? t with
    | none =>
      rw [maxDate?, ht] at h
      simp only [Option.some.injEq] at h
      subst h
      exact List.mem_cons_self a t
    | some d' =>
      rw [maxDate?, ht] at h
      simp only [Option.some.injEq] at h
      rcases Date.max2_cases a d' with hc | hc <;> rw [hc] at h <;> subst h
      · exact List.mem_cons_self a t
      · exact List.mem_cons_of_mem a (ih ht)

theorem maxDate?_le {l : List Date} {d : Date} (h : maxDate? l = some d) :
    ∀ x ∈ l, x.ble d = true := by
  induction l generalizing d with
  | nil => simp
  | cons a t ih =>
    intro x hx
    rcases List.mem_cons.mp hx with rfl | hxt
    · cases ht : maxDate? t with
      | none =>
        rw [maxDate?, ht] at h
        simp only [Option.some.injEq] at h
        subst h
        simp [Date.ble]
      | some d' =>
        rw [maxDate?, ht] at h
        simp only [Option.some.injEq] at h
        subst h
        simp only [Date.ble, Date.max2, decide_eq_true_eq]
        split <;> omega
    · cases ht : maxDate? t with
      | none =>
        rw [(maxDate?_eq_none t).mp ht] at hxt
        simp at hxt
      | some d' =>
        rw [maxDate?, ht] at h
        simp only [Option.some.injEq] at h
        subst h
        have hxd' := ih ht x hxt
        simp only [Date.ble, decide_eq_true_eq] at hxd'
        simp only [Date.ble, Date.max2, decide_eq_true_eq]
        split <;> omega

/-- C7: the expired report for billing month (y, m) contains exactly the
active members whose expiry_date is strictly before the first day of the
following month; a member whose expiry_date equals that boundary is
excluded; December rolls over to January 1 of the next year; and the date
joined to each row is the member's latest payment date (none, rendered
Never, exactly when the member has no payments at all). -/
theorem expired_report_exact (db : DB) (y m : Nat) (mem : Member) :
    ((mem, lastPaymentDate db mem.user_id) ∈ generate_expired_report db y m ↔
      mem ∈ db.members ∧ mem.is_active = true ∧
        Date.blt mem.expiry_date (nextMonthStart y m) = true) ∧
    (mem.expiry_date = nextMonthStart y m →
      ∀ lp, (mem, lp) ∉ generate_expired_report db y m) ∧
    nextMonthStart y 12 = ⟨y + 1, 1, 1⟩ ∧
    (lastPaymentDate db mem.user_id = none ↔
      (db.payments.filter fun p => p.user_id == mem.user_id) = []) ∧
    (∀ d, lastPaymentDate db mem.user_id = some d →
      (∃ p ∈ db.payments, p.user_id = mem.user_id ∧ p.payment_date = d) ∧
      ∀ p ∈ db.payments, p.user_id = mem.user_id → p.payment_date.ble d = true) := by
  refine ⟨?_, ?_, ?_, ?_, ?_⟩
  · unfold generate_expired_report
    simp only [List.mem_map, List.mem_filter, Bool.and_eq_true, Prod.mk.injEq]
    constructor
    · rintro ⟨a, ⟨ha, hblt, hact⟩, rfl, _⟩
      exact ⟨ha, hact, hblt⟩
    · rintro ⟨ha, hact, hblt⟩
      exact ⟨mem, ⟨ha, hblt, hact⟩, rfl, rfl⟩
  · intro heq lp hin
    unfold generate_expired_report at hin
    simp only [List.mem_map, List.mem_filter, Bool.and_eq_true, Prod.mk.injEq] at hin
    obtain ⟨a, ⟨_, hblt, _⟩, rfl, _⟩ := hin
    rw [heq] at hblt
    simp [Date.blt] at hblt
  · simp [nextMonthStart]
  · unfold lastPaymentDate
    rw [maxDate?_eq_none, List.map_eq_nil_iff]
  · intro d hd
    unfold lastPaymentDate at hd
    constructor
    · have hmem := maxDate?_mem hd
      simp only [List.mem_map, List.mem_filter, beq_iff_eq] at hmem
      obtain ⟨p, ⟨hp, hpu⟩, hpd⟩ := hmem
      exact ⟨p, hp, hpu, hpd⟩
    · intro p hp hpu
      refine maxDate?_le hd p.payment_date ?_
      simp only [List.mem_map, List.mem_filter, beq_iff_eq]
      exact ⟨p, ⟨hp, hpu⟩, rfl⟩

/-- Witness for C7: with both June half-payments on file, the active member
expiring 2024-06-30 appears on the 2024-06 expired report paired with the
latest payment date. -/
theorem expired_report_exact_witness :
    (exMember30, lastPaymentDate exDBC2 exMember30.user_id) ∈
      generate_expired_report exDBC2 2024 6 :=
  ((expired_report_exact exDBC2 2024 6 exMember30).1).mpr
    ⟨by decide, by decide, by decide⟩

/-- With user_id values free of duplicates (it is the PRIMARY KEY), a
filter whose predicate pins the user_id to one value keeps at most one row,
namely the one find? locates. -/
theorem filter_eq_find?_toList (l : List Member) (pr : Member → Bool) (k : String)
    (hnodup : (l.map Member.user_id).Nodup)
    (hpr : ∀ m, pr m = true → m.user_id = k) :
    l.filter pr = (l.find? pr).toList := by
  induction l with
  | nil => simp
  | cons a t ih =>
    rw [List.map_cons, List.nodup_cons] at hnodup
    cases hpa : pr a with
    | true =>
      have hk := hpr a hpa
      have htf : t.filter pr = [] := by
        refine List.filter_eq_nil_iff.mpr fun b hb hpb => ?_
        apply hnodup.1
        rw [hk, ← hpr b hpb]
        exact List.mem_map_of_mem Member.user_id hb
      rw [List.filter_cons_of_pos hpa, List.find?_cons_of_pos t hpa, htf]
      rfl
    | false =>
      rw [List.filter_cons_of_neg (by simp [hpa]),
        List.find?_cons_of_neg t (by simp [hpa])]
      exact ih hnodup.2
  
theorem flatMap_if_eq_filter {α : Type} (l : List α) (f : α → List α)
    (q : α → Bool) (h : ∀ a, f a = if q a then [a] else []) :
    l.flatMap f = l.filter q := by
  induction l with
  | nil => rfl
  | cons a t ih =>
    rw [List.flatMap_cons, h a, ih, List.filter_cons]
    split <;> simp

/-- A payment contributes a report row exactly when its month matches and
the member it joins to passes the kind predicate. -/
def reportQualifies (db : DB) (rt month sport : String) (p : Payment) : Bool :=
  p.month == month &&
  (db.members.find? fun m => m.user_id == p.user_id && reportPred rt sport m).isSome

/-- C9: with members keyed uniquely (user_id is the PRIMARY KEY), the
payment report for any kind and month has exactly one row per qualifying
payment, in table order (so a member paying twice in a 15-day month
contributes two rows); its total revenue is the sum of the qualifying
payments' amounts; and its unique-member count is the number of distinct
user_id values among the qualifying payments. -/
theorem payment_report_rows (db : DB) (rt month sport : String)
    (hnodup : (db.members.map Member.user_id).Nodup) :
    (generate_payment_report db rt month sport).map Prod.fst =
      db.payments.filter (reportQualifies db rt month sport) ∧
    totalRevenue (generate_payment_report db rt month sport) =
      ((db.payments.filter (reportQualifies db rt month sport)).map Payment.amount).sum ∧
    uniqueMemberCount (generate_payment_report db rt month sport) =
      (((db.payments.filter (reportQualifies db rt month sport)).map Payment.user_id).dedup).length := by
  have hpt : ∀ p : Payment,
      ((if (p.month == month) = true then
          ((db.members.filter fun m =>
            m.user_id == p.user_id && reportPred rt sport m).map fun m => (p, m))
        else []).map Prod.fst) =
        if reportQualifies db rt month sport p then [p] else [] := by
    intro p
    by_cases hm : (p.month == month) = true
    · rw [if_pos hm]
      rw [filter_eq_find?_toList _ _ p.user_id hnodup
        (fun m hmcond => by
          rw [Bool.and_eq_true, beq_iff_eq] at hmcond
          exact hmcond.1)]
      cases hf : db.members.find? fun m => m.user_id == p.user_id && reportPred rt sport m with
      | none => simp [reportQualifies, hm, hf]
      | some mm => simp [reportQualifies, hm, hf]
    · rw [if_neg hm]
      simp only [List.map_nil]
      rw [if_neg (by simp [reportQualifies, hm])]
  have hA : (generate_payment_report db rt month sport).map Prod.fst =
      db.payments.filter (reportQualifies db rt month sport) := by
    unfold generate_payment_report
    rw [List.map_flatMap]
    exact flatMap_if_eq_filter _ _ _ hpt
  refine ⟨hA, ?_, ?_⟩
  · unfold totalRevenue
    rw [← hA, List.map_map]
    rfl
  · have hrow : ∀ r ∈ generate_payment_report db rt month sport,
        r.2.user_id = r.1.user_id := by
      intro r hr
      unfold generate_payment_report at hr
      rw [List.mem_flatMap] at hr
      obtain ⟨p, hp, hrin⟩ := hr
      by_cases hm : (p.month == month) = true
      · rw [if_pos hm, List.mem_map] at hrin
        obtain ⟨mm, hmm, rfl⟩ := hrin
        rw [List.mem_filter, Bool.and_eq_true, beq_iff_eq] at hmm
        exact hmm.2.1
      · rw [if_neg hm] at hrin
        simp at hrin
    unfold uniqueMemberCount
    have hmapeq : (generate_payment_report db rt month sport).map (fun r => r.2.user_id) =
        (generate_payment_report db rt month sport).map (fun r => r.1.user_id) :=
      List.map_congr_left hrow
    rw [hmapeq, ← hA, List.map_map]
    rfl

/-- Witness for C9: the All-Members report over a database with one member
and two June payments. -/
theorem payment_report_rows_witness :
    (generate_payment_report exDBC2 "All Members" "2024-06" "All").map Prod.fst =
      exDBC2.payments.filter (reportQualifies exDBC2 "All Members" "2024-06" "All") :=
  (payment_report_rows exDBC2 "All Members" "2024-06" "All" (by decide)).1
